import Mathlib

/-!
Shallow embedding of the change-event propagation core of the
unbundled-database playground repository.

Embedded source:
- `src/consumers/cache-updater.ts` — the cache projection consumer
  (`handleCreateOrUpdate`, `handleDelete`, `updateAuthorPostsList`,
  `removeFromAuthorPostsList`, and the `eachMessage` operation switch);
- the search indexer consumer (second half of `src/api/server.ts`):
  `handleCreateOrUpdate`, `handleDelete`, and its operation switch;
- `MockElasticsearch` (`index`, `delete`) and `MockRedis`
  (`setex`, `del`, `zadd`, `zrem`, `expire`) from the test helpers, which
  give the downstream-store semantics the repository's unit tests run
  against;
- the handler copies embedded in
  `__tests__/unit/consumers/search_indexer.test.ts` and
  `__tests__/unit/consumers/cache-updater.test.ts` (labelled in the repo
  as "extracted from the actual Consumer"), which differ from the
  production handlers in field validation and error propagation; both
  variants are embedded side by side, the test-extracted ones under a
  `Tested` suffix;
- the decode step of both consumers' `eachMessage`
  (`JSON.parse` followed by the `payload` / `op` / `before` / `after`
  member accesses), as `decodeChangeEvent` over a small JSON syntax.

Modelling conventions: a JavaScript `Map` (unique keys) is a function
`String → Option α`; `Date.now()` is an explicit `now : Nat` argument; a
rejected promise from a downstream client is modelled by the
`avail : Bool` flag on the client call (when `false` the call returns the
transient error the unit tests inject with `mockRejectedValueOnce`).
A JSON-serialized cache value is modelled by the record of the exact six
fields the handler serializes (`JSON.stringify` is injective on that
shape).
-/

namespace UnbundledDB

/-- A JavaScript `Map<string, α>`, modelled extensionally as a function
from keys to optional values (key insertion order is not observed by any
of the embedded code paths). -/
def Store (α : Type) : Type := String → Option α

namespace Store

def empty {α : Type} : Store α := fun _ => none

/-- `Map.set`: full replace of the value at a key. -/
def set {α : Type} (m : Store α) (k : String) (v : α) : Store α :=
  fun q => if q = k then some v else m q

/-- `Map.delete`. -/
def del {α : Type} (m : Store α) (k : String) : Store α :=
  fun q => if q = k then none else m q

/-- `Map.has`. -/
def has {α : Type} (m : Store α) (k : String) : Bool :=
  (m k).isSome

end Store

/-- The row entity as the consumers project it: the six fields copied by
both `handleCreateOrUpdate` implementations. `id` is the row identifier
(a JS number); the string fields may be absent at runtime (the wire
payload is unvalidated JSON), which is modelled by `Option`. -/
structure PostDoc where
  id : Nat
  title : Option String
  content : Option String
  author : Option String
  created_at : Option String
  updated_at : Option String
deriving DecidableEq, Repr

/-- The document written by `es.index` / cached by `redis.setex`: the
object literal `{id, title, content, author, created_at, updated_at}`
built from the event's `after` row. It copies exactly the six modelled
fields. -/
def docOf (p : PostDoc) : PostDoc :=
  { id := p.id, title := p.title, content := p.content, author := p.author,
    created_at := p.created_at, updated_at := p.updated_at }

/-- JS template-literal coercion for an optional string
(interpolating `undefined` renders the string `undefined`). -/
def jsTemplateStr : Option String → String
  | some s => s
  | none => "undefined"

/-- JS falsiness of an optional string value: `undefined` and the empty
string are falsy. -/
def jsFalsyStr : Option String → Bool
  | none => true
  | some s => s == ""

/-- JS falsiness of a number: `0` is falsy. -/
def jsFalsyNat (n : Nat) : Bool := n == 0

/-- The `payload` of a Debezium change event, restricted to the fields
the consumers read: `op`, `before`, `after` (`source` and `ts_ms` are
never read by the handlers). `op` is kept as a raw string, as on the
wire. -/
structure ChangePayload where
  op : String
  before : Option PostDoc
  after : Option PostDoc
deriving DecidableEq, Repr

/-! ## MockElasticsearch (test helper): the search downstream store -/

/-- `MockElasticsearch.documents : Map<string, Map<string, any>>` —
index name to (document id to document). -/
def EsState : Type := Store (Store PostDoc)

def esEmpty : EsState := Store.empty

/-- Response of `MockElasticsearch.index` (fields `_index`, `_id`,
`result` in the source). -/
structure EsIndexResult where
  indexName : String
  docId : String
  result : String
deriving DecidableEq, Repr

/-- An error thrown by the Elasticsearch client, carrying
`meta.statusCode` when present (`some 404` for document-not-found;
`none` for a network-level transient error). -/
structure EsErr where
  statusCode : Option Nat
deriving DecidableEq, Repr

/-- `MockElasticsearch.index`: ensure the per-index map exists, then do a
full-document replace at the id, then report `"updated"` or `"created"`
according to a membership check (which runs after the `set`). -/
def esIndex (s : EsState) (idx docId : String) (doc : PostDoc) :
    EsState × EsIndexResult :=
  let s0 := if (s idx).isSome then s else s.set idx Store.empty
  let indexDocs := (s0 idx).getD Store.empty
  let indexDocs2 := indexDocs.set docId doc
  (s0.set idx indexDocs2,
   { indexName := idx, docId := docId,
     result := if indexDocs2.has docId then "updated" else "created" })

/-- `MockElasticsearch.delete`: throws a 404 error when the index or the
document is missing, otherwise removes the document. -/
def esDelete (s : EsState) (idx docId : String) :
    Except EsErr (EsState × String) :=
  match s idx with
  | none => .error { statusCode := some 404 }
  | some indexDocs =>
    if indexDocs.has docId then
      .ok (s.set idx (indexDocs.del docId), "deleted")
    else .error { statusCode := some 404 }

/-- The `es.index(...)` call as the consumer sees it: when the downstream
is unavailable the promise rejects with a network error (no status
code). -/
def esIndexCall (avail : Bool) (s : EsState) (idx docId : String)
    (doc : PostDoc) : Except EsErr (EsState × EsIndexResult) :=
  if avail then .ok (esIndex s idx docId doc)
  else .error { statusCode := none }

/-- The `es.delete(...)` call with downstream availability. -/
def esDeleteCall (avail : Bool) (s : EsState) (idx docId : String) :
    Except EsErr (EsState × String) :=
  if avail then esDelete s idx docId
  else .error { statusCode := none }

/-- Is a document with this id present in the `posts` index? -/
def esContains (s : EsState) (docId : String) : Bool :=
  match s "posts" with
  | some indexDocs => indexDocs.has docId
  | none => false

/-! ## MockRedis (test helper): the cache downstream store -/

/-- `MockRedis` state: `data` (key to cached JSON value, modelled as the
serialized record), `expiry` (key to absolute expiry in ms), and
`sortedSets` (key to member-to-score map). -/
@[ext]
structure RedisState where
  data : Store PostDoc
  expiry : Store Nat
  sortedSets : Store (Store Nat)

def redisEmpty : RedisState :=
  { data := Store.empty, expiry := Store.empty, sortedSets := Store.empty }

/-- An error from a rejected Redis promise (the unit tests inject
`new Error("Connection refused")`). -/
inductive RedisErr where
  | connectionRefused
deriving DecidableEq, Repr

/-- `MockRedis.setex key seconds value`: store the value and set its
absolute expiry to `now + seconds * 1000`. -/
def redisSetex (s : RedisState) (now : Nat) (key : String) (seconds : Nat)
    (value : PostDoc) : RedisState :=
  { s with data := s.data.set key value,
           expiry := s.expiry.set key (now + seconds * 1000) }

/-- `MockRedis.del key`: remove the key from `data`, `expiry` and
`sortedSets`. -/
def redisDel (s : RedisState) (key : String) : RedisState :=
  { data := s.data.del key, expiry := s.expiry.del key,
    sortedSets := s.sortedSets.del key }

/-- `MockRedis.zadd key score member`: create the sorted set if missing,
then set the member's score (full replace for an existing member). -/
def redisZadd (s : RedisState) (key : String) (score : Nat)
    (member : String) : RedisState :=
  let set0 := (s.sortedSets key).getD Store.empty
  { s with sortedSets := s.sortedSets.set key (set0.set member score) }

/-- `MockRedis.zrem key member`: no-op when the set is missing, else
delete the member. -/
def redisZrem (s : RedisState) (key : String) (member : String) :
    RedisState :=
  match s.sortedSets key with
  | none => s
  | some set0 =>
    { s with sortedSets := s.sortedSets.set key (set0.del member) }

/-- `MockRedis.expire key seconds`: only refreshes the expiry when the
key exists in `data` or `sortedSets` (returns 0 otherwise). -/
def redisExpire (s : RedisState) (now : Nat) (key : String)
    (seconds : Nat) : RedisState × Nat :=
  if (s.data key).isSome || (s.sortedSets key).isSome then
    ({ s with expiry := s.expiry.set key (now + seconds * 1000) }, 1)
  else (s, 0)

/-- The `redis.setex(...)` call with downstream availability. -/
def redisSetexCall (avail : Bool) (s : RedisState) (now : Nat)
    (key : String) (seconds : Nat) (value : PostDoc) :
    Except RedisErr RedisState :=
  if avail then .ok (redisSetex s now key seconds value)
  else .error .connectionRefused

/-- Score of a member in a sorted set, `none` when the set or the member
is absent. -/
def zsetScore (s : RedisState) (key member : String) : Option Nat :=
  (s.sortedSets key).bind (fun m => m member)

/-! ## Search indexer consumer (second half of `src/api/server.ts`) -/

/-- Production `handleCreateOrUpdate` of the search indexer: skip when
`after` is null; otherwise index the six-field document under id
`post.id.toString()` in index `posts`. The whole write sits in a
`try/catch` whose catch only logs, so a rejected write is swallowed and
the handler returns normally. No field validation is performed. -/
def searchIndexerUpsert (avail : Bool) (after : Option PostDoc)
    (s : EsState) : EsState × Except EsErr Unit :=
  match after with
  | none => (s, .ok ())
  | some post =>
    match esIndexCall avail s "posts" (toString post.id) (docOf post) with
    | .ok (s2, _) => (s2, .ok ())
    | .error _ => (s, .ok ())

/-- The `handleCreateOrUpdate` copy in
`__tests__/unit/consumers/search_indexer.test.ts` (labelled "extracted
from the actual Consumer"): it additionally validates
`!post.id || !post.title || !post.content || !post.author` and skips on
a missing required field, and it has no `try/catch`, so a rejected write
propagates to the caller. -/
def searchIndexerUpsertTested (avail : Bool) (after : Option PostDoc)
    (s : EsState) : EsState × Except EsErr Unit :=
  match after with
  | none => (s, .ok ())
  | some post =>
    if jsFalsyNat post.id || jsFalsyStr post.title
        || jsFalsyStr post.content || jsFalsyStr post.author then
      (s, .ok ())
    else
      match esIndexCall avail s "posts" (toString post.id) (docOf post) with
      | .ok (s2, _) => (s2, .ok ())
      | .error e => (s, .error e)

/-- Production `handleDelete` of the search indexer: skip when `before`
is null; otherwise delete by id. The catch ignores a 404 (already
deleted) and only logs any other error — nothing is rethrown. -/
def searchIndexerDelete (avail : Bool) (before : Option PostDoc)
    (s : EsState) : EsState × Except EsErr Unit :=
  match before with
  | none => (s, .ok ())
  | some post =>
    match esDeleteCall avail s "posts" (toString post.id) with
    | .ok (s2, _) => (s2, .ok ())
    | .error _ => (s, .ok ())

/-- The operation switch of the search indexer's `eachMessage`:
`c`/`r`/`u` dispatch to `handleCreateOrUpdate`, `d` to `handleDelete`,
anything else logs "Unknown operation" and continues. -/
def searchApply (avail : Bool) (ev : ChangePayload) (s : EsState) :
    EsState × Except EsErr Unit :=
  if ev.op = "c" ∨ ev.op = "r" ∨ ev.op = "u" then
    searchIndexerUpsert avail ev.after s
  else if ev.op = "d" then
    searchIndexerDelete avail ev.before s
  else (s, .ok ())

/-! ## Cache updater consumer (`src/consumers/cache-updater.ts`) -/

def CACHE_TTL : Nat := 300

/-- `updateAuthorPostsList author postId`: zadd the id (scored by
`Date.now()`) into `author:{author}:posts` and refresh that key's TTL.
Its own `try/catch` only logs; its body cannot reject in the mock. -/
def updateAuthorPostsList (s : RedisState) (now : Nat)
    (author : Option String) (postId : Nat) : RedisState :=
  let key := "author:" ++ jsTemplateStr author ++ ":posts"
  let s1 := redisZadd s key now (toString postId)
  (redisExpire s1 now key CACHE_TTL).1

/-- `removeFromAuthorPostsList author postId`: zrem the id from the
author's sorted set. -/
def removeFromAuthorPostsList (s : RedisState) (author : Option String)
    (postId : Nat) : RedisState :=
  redisZrem s ("author:" ++ jsTemplateStr author ++ ":posts")
    (toString postId)

/-- Production `handleCreateOrUpdate` of the cache updater: skip when
`after` is null; otherwise `setex post:{id}` with TTL 300 and the
six-field JSON value, then update the author list. The surrounding
`try/catch` only logs, so a rejected write is swallowed and the handler
returns normally. No field other than the identifier is used for the
key; none is validated. -/
def cacheUpsert (avail : Bool) (now : Nat) (after : Option PostDoc)
    (s : RedisState) : RedisState × Except RedisErr Unit :=
  match after with
  | none => (s, .ok ())
  | some post =>
    match redisSetexCall avail s now ("post:" ++ toString post.id)
        CACHE_TTL (docOf post) with
    | .ok s1 => (updateAuthorPostsList s1 now post.author post.id, .ok ())
    | .error _ => (s, .ok ())

/-- The `handleCreateOrUpdate` copy in
`__tests__/unit/consumers/cache-updater.test.ts` (labelled "extracted
from the actual Consumer"): same writes but no `try/catch`, so a
rejected `setex` propagates to the caller. -/
def cacheUpsertTested (avail : Bool) (now : Nat) (after : Option PostDoc)
    (s : RedisState) : RedisState × Except RedisErr Unit :=
  match after with
  | none => (s, .ok ())
  | some post =>
    match redisSetexCall avail s now ("post:" ++ toString post.id)
        CACHE_TTL (docOf post) with
    | .ok s1 => (updateAuthorPostsList s1 now post.author post.id, .ok ())
    | .error e => (s, .error e)

/-- `handleDelete` of the cache updater (the production handler and the
test copy coincide here, as none of these mock operations can reject):
skip when `before` is null; otherwise `del post:{id}` and remove the id
from the author list. -/
def cacheDelete (before : Option PostDoc) (s : RedisState) :
    RedisState × Except RedisErr Unit :=
  match before with
  | none => (s, .ok ())
  | some post =>
    let s1 := redisDel s ("post:" ++ toString post.id)
    (removeFromAuthorPostsList s1 post.author post.id, .ok ())

/-- The operation switch of the cache updater's `eachMessage`:
`c`/`r`/`u` dispatch to `handleCreateOrUpdate`, `d` to `handleDelete`,
anything else logs "Unknown operation" and continues. -/
def cacheApply (avail : Bool) (now : Nat) (ev : ChangePayload)
    (s : RedisState) : RedisState × Except RedisErr Unit :=
  if ev.op = "c" ∨ ev.op = "r" ∨ ev.op = "u" then
    cacheUpsert avail now ev.after s
  else if ev.op = "d" then
    cacheDelete ev.before s
  else (s, .ok ())

/-- A sequence of Create records, one per row, applied in order by the
cache projection (all at ingestion time `now`, downstream available). -/
def applyCreateSeq (now : Nat) (ps : List PostDoc) (s : RedisState) :
    RedisState :=
  ps.foldl
    (fun st p =>
      (cacheApply true now
        { op := "c", before := none, after := some p } st).1)
    s

/-! ## The decode step of `eachMessage` -/

/-- JSON values, as produced by `JSON.parse`. -/
inductive Json where
  | null
  | bool (b : Bool)
  | num (n : Int)
  | str (s : String)
  | arr (elems : List Json)
  | obj (fields : List (String × Json))

/-- Field lookup in a parsed JSON object. -/
def jGet : List (String × Json) → String → Option Json
  | [], _ => none
  | (k, v) :: rest, q => if k = q then some v else jGet rest q

/-- The two ways the decode step of `eachMessage` can throw:
`JSON.parse` on an unparseable payload, or a `TypeError` from reading a
property of `undefined`/`null` while accessing the envelope. Both are
caught by the consumer's own catch block, which logs and continues. -/
inductive DecodeError where
  | malformedJson
  | envelopeAccess
deriving DecidableEq, Repr

/-- JS member access `value.prop`: throws on `undefined`/`null`, looks up
the field on an object, and yields `undefined` on any other value. -/
def jsGet : Option Json → String → Except DecodeError (Option Json)
  | none, _ => .error .envelopeAccess
  | some .null, _ => .error .envelopeAccess
  | some (.obj fs), k => .ok (jGet fs k)
  | some _, _ => .ok none

/-- The change record as the decode step leaves it: the raw JSON values
of `op`, `before` and `after` (no schema validation has happened). -/
structure RawChangeRecord where
  op : Option Json
  before : Option Json
  after : Option Json

/-- The decode step both consumers perform on a message value:
`JSON.parse` (a `none` input models bytes that do not parse), then the
member accesses `payload`, `payload.op`, `payload.before`,
`payload.after`. No operation-code or field-schema check happens here. -/
def decodeChangeEvent (raw : Option Json) :
    Except DecodeError RawChangeRecord :=
  match raw with
  | none => .error .malformedJson
  | some j => do
    let payload ← jsGet (some j) "payload"
    let op ← jsGet payload "op"
    let b ← jsGet payload "before"
    let a ← jsGet payload "after"
    .ok { op := op, before := b, after := a }

/-! ## Concrete sample inputs -/

/-- A fully-populated row, as in the repository's DDT test cases. -/
def samplePost : PostDoc :=
  { id := 1, title := some "Test Post", content := some "Test Content",
    author := some "Test Author", created_at := some "2024-01-01T00:00:00Z",
    updated_at := some "2024-01-01T00:00:00Z" }

/-- A row carrying only an identifier — the "missing required fields"
case of the search indexer unit test. -/
def incompletePost : PostDoc :=
  { id := 1, title := none, content := none, author := none,
    created_at := none, updated_at := none }

/-- The row with identifier 42 used by the delete-absent property. -/
def post42 : PostDoc :=
  { id := 42, title := some "T", content := some "B", author := some "A",
    created_at := some "t0", updated_at := some "t0" }

/-- A structurally well-formed envelope whose operation code `x` is
unknown to both consumers. -/
def unknownOpPayload : Json :=
  .obj [("payload",
    .obj [("op", .str "x"), ("before", .null), ("after", .null)])]

/-- Three rows by the same author, with distinct identifiers. -/
def authorRow (i : Nat) : PostDoc :=
  { id := i, title := some "Post", content := some "Content",
    author := some "Alice", created_at := some "t0",
    updated_at := some "t0" }

/-! ## Store lemmas -/

theorem Store.get_set_self {α : Type} (m : Store α) (k : String) (v : α) :
    (m.set k v) k = some v := by
  simp [Store.set]

theorem Store.get_set_ne {α : Type} (m : Store α) {q k : String} (v : α)
    (h : q ≠ k) : (m.set k v) q = m q := by
  simp [Store.set, h]

theorem Store.set_set {α : Type} (m : Store α) (k : String) (v w : α) :
    (m.set k v).set k w = m.set k w := by
  funext q
  by_cases h : q = k <;> simp [Store.set, h]

theorem Store.get_del_self {α : Type} (m : Store α) (k : String) :
    (m.del k) k = none := by
  simp [Store.del]

theorem Store.get_del_ne {α : Type} (m : Store α) {q k : String}
    (h : q ≠ k) : (m.del k) q = m q := by
  simp [Store.del, h]

theorem Store.del_del {α : Type} (m : Store α) (k : String) :
    (m.del k).del k = m.del k := by
  funext q
  by_cases h : q = k <;> simp [Store.del, h]

theorem Store.del_of_get_none {α : Type} (m : Store α) {k : String}
    (h : m k = none) : m.del k = m := by
  funext q
  by_cases hq : q = k
  · simp [Store.del, hq, h]
  · simp [Store.del, hq]

theorem Store.set_of_get_eq {α : Type} (m : Store α) {k : String} {v : α}
    (h : m k = some v) : m.set k v = m := by
  funext q
  by_cases hq : q = k
  · simp [Store.set, hq, h]
  · simp [Store.set, hq]

theorem Store.set_del_comm {α : Type} (S : Store α) {a k : String} (X : α)
    (h : a ≠ k) : (S.set a X).del k = (S.del k).set a X := by
  funext q
  by_cases h1 : q = k
  · simp [Store.set, Store.del, h1, Ne.symm h]
  · by_cases h2 : q = a <;> simp [Store.set, Store.del, h1, h2, h]

theorem set_collapse_pair {α : Type} (E : Store α) (pk ak : String)
    (e1 e2 f1 f2 : α) :
    (((E.set pk e1).set ak f1).set pk e2).set ak f2
      = (E.set pk e2).set ak f2 := by
  funext q
  by_cases h1 : q = ak
  · simp [Store.set, h1]
  · by_cases h2 : q = pk <;> simp [Store.set, h1, h2]

theorem getD_empty_eq_bind (o : Option (Store Nat)) (x : String) :
    (o.getD Store.empty) x = o.bind (fun m => m x) := by
  cases o <;> simp [Store.empty]

/-! ## Key-space disjointness

The primary cache key `post:{id}` and the secondary-index key
`author:{author}:posts` can never collide: they start with different
characters. -/

theorem author_key_ne_post_key (x y : String) :
    ("author:" ++ x ++ ":posts") ≠ ("post:" ++ y) := by
  intro h
  have h2 := congrArg String.data h
  simp [String.data_append] at h2

/-! ## Canonical forms of the cache handlers -/

theorem cacheUpsert_eq (p : PostDoc) (now : Nat) (s : RedisState) :
    (cacheUpsert true now (some p) s).1 =
      { data := s.data.set ("post:" ++ toString p.id) (docOf p),
        expiry := (s.expiry.set ("post:" ++ toString p.id)
            (now + CACHE_TTL * 1000)).set
          ("author:" ++ jsTemplateStr p.author ++ ":posts")
          (now + CACHE_TTL * 1000),
        sortedSets := s.sortedSets.set
          ("author:" ++ jsTemplateStr p.author ++ ":posts")
          (((s.sortedSets
              ("author:" ++ jsTemplateStr p.author ++ ":posts")).getD
                Store.empty).set (toString p.id) now) } := by
  simp only [cacheUpsert, redisSetexCall, if_true, updateAuthorPostsList,
    redisZadd, redisExpire, redisSetex]
  simp [Store.get_set_self]

/-! ## Idempotence of the individual handlers -/

theorem esIndex_state_idem (s : EsState) (idx docId : String)
    (doc : PostDoc) :
    (esIndex (esIndex s idx docId doc).1 idx docId doc).1
      = (esIndex s idx docId doc).1 := by
  simp only [esIndex]
  simp [Store.get_set_self, Store.set_set]

theorem searchUpsert_idem (p : PostDoc) (s : EsState) :
    (searchIndexerUpsert true (some p)
        (searchIndexerUpsert true (some p) s).1).1
      = (searchIndexerUpsert true (some p) s).1 := by
  simp only [searchIndexerUpsert, esIndexCall, if_true]
  exact esIndex_state_idem s "posts" (toString p.id) (docOf p)

theorem searchDelete_idem (p : PostDoc) (s : EsState) :
    (searchIndexerDelete true (some p)
        (searchIndexerDelete true (some p) s).1).1
      = (searchIndexerDelete true (some p) s).1 := by
  unfold searchIndexerDelete esDeleteCall esDelete
  cases h : s "posts" with
  | none => simp [h]
  | some docs =>
    by_cases hh : (docs (toString p.id)).isSome = true
    · simp [h, Store.has, hh, Store.get_set_self, Store.get_del_self]
    · simp [h, Store.has, hh]

theorem cacheUpsert_idem (p : PostDoc) (t1 t2 : Nat) (s : RedisState) :
    (cacheUpsert true t2 (some p) (cacheUpsert true t1 (some p) s).1).1
      = (cacheUpsert true t2 (some p) s).1 := by
  rw [cacheUpsert_eq, cacheUpsert_eq, cacheUpsert_eq]
  simp only [RedisState.mk.injEq]
  refine ⟨?_, ?_, ?_⟩
  · exact Store.set_set s.data _ _ _
  · exact set_collapse_pair s.expiry _ _ _ _ _ _
  · simp [Store.get_set_self, Store.set_set]

theorem cacheDelete_idem (p : PostDoc) (s : RedisState) :
    (cacheDelete (some p) (cacheDelete (some p) s).1).1
      = (cacheDelete (some p) s).1 := by
  have hne : ("author:" ++ jsTemplateStr p.author ++ ":posts")
      ≠ ("post:" ++ toString p.id) := author_key_ne_post_key _ _
  simp only [cacheDelete, removeFromAuthorPostsList, redisZrem, redisDel]
  cases h : s.sortedSets
      ("author:" ++ jsTemplateStr p.author ++ ":posts") with
  | none =>
    simp only [Store.get_del_ne _ hne, h]
    simp [Store.del_del, Store.get_del_ne _ hne, h]
  | some m =>
    simp [Store.get_del_ne _ hne, h, Store.del_del,
      Store.set_del_comm _ _ hne, Store.get_set_self, Store.set_set]

/-! ## Sorted-set bookkeeping of the cache projection -/

theorem createStep_sortedSets (now : Nat) (p : PostDoc) (s : RedisState) :
    (cacheApply true now
        { op := "c", before := none, after := some p } s).1.sortedSets
      = s.sortedSets.set ("author:" ++ jsTemplateStr p.author ++ ":posts")
          (((s.sortedSets
              ("author:" ++ jsTemplateStr p.author ++ ":posts")).getD
                Store.empty).set (toString p.id) now) := by
  have hc : (cacheApply true now
        { op := "c", before := none, after := some p } s)
      = cacheUpsert true now (some p) s := rfl
  rw [hc, cacheUpsert_eq]

theorem createStep_zscore (now : Nat) (a : String) (p : PostDoc)
    (s : RedisState) (hj : jsTemplateStr p.author = a) (x : String) :
    zsetScore (cacheApply true now
        { op := "c", before := none, after := some p } s).1
        ("author:" ++ a ++ ":posts") x
      = if x = toString p.id then some now
        else zsetScore s ("author:" ++ a ++ ":posts") x := by
  have hstep := createStep_sortedSets now p s
  rw [hj] at hstep
  rw [zsetScore, hstep, Store.get_set_self]
  show (((s.sortedSets ("author:" ++ a ++ ":posts")).getD Store.empty).set
      (toString p.id) now) x = _
  by_cases hx : x = toString p.id
  · simp [Store.set, hx]
  · rw [Store.get_set_ne _ _ hx, getD_empty_eq_bind, if_neg hx]
    rfl

theorem createSeq_zset_lookup (now : Nat) (a : String)
    (ps : List PostDoc) :
    ps ≠ [] → ∀ (s : RedisState), (∀ p ∈ ps, p.author = some a) →
    ∃ m, (applyCreateSeq now ps s).sortedSets ("author:" ++ a ++ ":posts")
        = some m
      ∧ ∀ x, m x = if x ∈ ps.map (fun p => toString p.id) then some now
          else zsetScore s ("author:" ++ a ++ ":posts") x := by
  induction ps with
  | nil => intro h; exact absurd rfl h
  | cons p ps ih =>
    intro _ s hauth
    have hj : jsTemplateStr p.author = a := by
      rw [hauth p (List.mem_cons_self p ps)]; rfl
    have hstep := createStep_sortedSets now p s
    rw [hj] at hstep
    have hfold : applyCreateSeq now (p :: ps) s
        = applyCreateSeq now ps
            ((cacheApply true now
              { op := "c", before := none, after := some p } s).1) := rfl
    have hnilapp : ∀ t : RedisState, applyCreateSeq now [] t = t :=
      fun t => rfl
    by_cases hnil : ps = []
    · subst hnil
      refine ⟨((s.sortedSets ("author:" ++ a ++ ":posts")).getD
          Store.empty).set (toString p.id) now, ?_, ?_⟩
      · rw [hfold, hnilapp, hstep, Store.get_set_self]
      · intro x
        by_cases hx : x = toString p.id
        · simp [Store.set, hx]
        · rw [Store.get_set_ne _ _ hx, getD_empty_eq_bind]
          simp [hx, zsetScore]
    · obtain ⟨m, hm, hmx⟩ := ih hnil
        ((cacheApply true now
          { op := "c", before := none, after := some p } s).1)
        (fun q hq => hauth q (List.mem_cons_of_mem _ hq))
      refine ⟨m, ?_, ?_⟩
      · rw [hfold]; exact hm
      · intro x
        rw [hmx x, createStep_zscore now a p s hj x]
        by_cases hx : x ∈ ps.map (fun q => toString q.id) <;>
          by_cases hx2 : x = toString p.id <;>
            simp [List.map_cons, List.mem_cons, hx, hx2]

theorem cacheDelete_zscore (p : PostDoc) (a : String) (s : RedisState)
    (hja : jsTemplateStr p.author = a) (x : String) :
    zsetScore (cacheDelete (some p) s).1 ("author:" ++ a ++ ":posts") x
      = if x = toString p.id then none
        else zsetScore s ("author:" ++ a ++ ":posts") x := by
  have hne : ("author:" ++ a ++ ":posts") ≠ ("post:" ++ toString p.id) :=
    author_key_ne_post_key a (toString p.id)
  simp only [cacheDelete, removeFromAuthorPostsList, hja, redisZrem,
    redisDel]
  rw [Store.get_del_ne _ hne]
  cases hs : s.sortedSets ("author:" ++ a ++ ":posts") with
  | none =>
    simp only [zsetScore]
    rw [Store.get_del_ne _ hne, hs]
    by_cases hx : x = toString p.id <;> simp [hx, zsetScore, hs]
  | some m0 =>
    simp only [zsetScore]
    rw [Store.get_set_self]
    by_cases hx : x = toString p.id <;>
      simp [Store.del, hx, zsetScore, hs]

/-! ## Claim theorems -/

/-- C1. `apply` is idempotent for every Change Record and every downstream
state: replaying a record (second application at any ingestion time `t2`)
leaves the downstream exactly as a single application at `t2` does — for
the search projection there is no time dependence, so this is literally
apply-twice equals apply-once; taking `t1 = t2` gives the same for the
cache projection. An upsert is a full-document replace keyed by the row
identifier and a delete of an absent identifier is a no-op. -/
theorem apply_idempotent_C1 (ev : ChangePayload) (sE : EsState)
    (sR : RedisState) (t1 t2 : Nat) :
    (searchApply true ev (searchApply true ev sE).1).1
      = (searchApply true ev sE).1
    ∧ (cacheApply true t2 ev (cacheApply true t1 ev sR).1).1
      = (cacheApply true t2 ev sR).1 := by
  obtain ⟨op, b, a⟩ := ev
  by_cases h1 : op = "c" ∨ op = "r" ∨ op = "u"
  · constructor
    · simp only [searchApply, if_pos h1]
      cases a with
      | none => rfl
      | some p => exact searchUpsert_idem p sE
    · simp only [cacheApply, if_pos h1]
      cases a with
      | none => rfl
      | some p => exact cacheUpsert_idem p t1 t2 sR
  · by_cases h2 : op = "d"
    · constructor
      · simp only [searchApply, if_neg h1, if_pos h2]
        cases b with
        | none => rfl
        | some p => exact searchDelete_idem p sE
      · simp only [cacheApply, if_neg h1, if_pos h2]
        cases b with
        | none => rfl
        | some p => exact cacheDelete_idem p sR
    · constructor <;> simp [searchApply, cacheApply, h1, h2]

/-- C2. The claim says a transient downstream failure must propagate out
of `apply` so the offset does not advance. The production handlers
contradict it: on a Create record with a fully-populated row and an
unavailable downstream (`avail = false`, the rejected write the unit
tests inject), both production consumers return success with no state
change — the error is swallowed by their `catch` blocks. The
test-extracted copies of the same handlers do propagate the error, which
is what the repository's own unit tests assert. -/
theorem transient_error_swallowed_C2 :
    (searchApply false { op := "c", before := none, after := some samplePost }
        esEmpty = (esEmpty, .ok ()))
    ∧ (cacheApply false 7 { op := "c", before := none, after := some samplePost }
        redisEmpty = (redisEmpty, .ok ()))
    ∧ ((searchIndexerUpsertTested false (some samplePost) esEmpty).2
        = .error { statusCode := none })
    ∧ ((cacheUpsertTested false 7 (some samplePost) redisEmpty).2
        = .error .connectionRefused) :=
  ⟨rfl, rfl, rfl, rfl⟩

/-- C3. A Create (or Update/Snapshot) record whose `after` is null is
skipped by both projections: zero downstream writes (the state is
returned unchanged) and a successful, non-throwing return — for any
downstream availability. -/
theorem skip_null_after_C3 (op : String) (b : Option PostDoc)
    (avail : Bool) (now : Nat) (sE : EsState) (sR : RedisState)
    (hop : op = "c" ∨ op = "u" ∨ op = "r") :
    searchApply avail { op := op, before := b, after := none } sE
      = (sE, .ok ())
    ∧ cacheApply avail now { op := op, before := b, after := none } sR
      = (sR, .ok ()) := by
  rcases hop with h | h | h <;> subst h <;> exact ⟨rfl, rfl⟩

/-- Witness for C3 at a concrete Create record with `after = null` and
empty downstream states. -/
theorem skip_null_after_C3_witness :
    ("c" = "c" ∨ "c" = "u" ∨ "c" = "r")
    ∧ (searchApply true { op := "c", before := none, after := none } esEmpty
        = (esEmpty, .ok ())
      ∧ cacheApply true 0 { op := "c", before := none, after := none }
          redisEmpty = (redisEmpty, .ok ())) :=
  ⟨Or.inl rfl,
   skip_null_after_C3 "c" none true 0 esEmpty redisEmpty (Or.inl rfl)⟩

/-- C4. Deleting a row whose identifier is absent from the downstream
store succeeds with no error and leaves the downstream state unchanged,
for both projections: the search indexer catches the 404 thrown by
`es.delete`, and the cache updater's `del`/`zrem` are no-ops on absent
keys and members. -/
theorem delete_absent_success_C4 (p : PostDoc) (a2 : Option PostDoc)
    (now : Nat) (sE : EsState) (sR : RedisState)
    (hE : esContains sE (toString p.id) = false)
    (hd : sR.data ("post:" ++ toString p.id) = none)
    (he : sR.expiry ("post:" ++ toString p.id) = none)
    (hz : sR.sortedSets ("post:" ++ toString p.id) = none)
    (hm : zsetScore sR ("author:" ++ jsTemplateStr p.author ++ ":posts")
        (toString p.id) = none) :
    searchApply true { op := "d", before := some p, after := a2 } sE
      = (sE, .ok ())
    ∧ cacheApply true now { op := "d", before := some p, after := a2 } sR
      = (sR, .ok ()) := by
  constructor
  · show searchIndexerDelete true (some p) sE = (sE, .ok ())
    unfold esContains at hE
    simp only [searchIndexerDelete, esDeleteCall, if_true, esDelete]
    cases h : sE "posts" with
    | none => simp [h]
    | some docs =>
      rw [h] at hE
      simp at hE
      simp [h, hE]
  · show cacheDelete (some p) sR = (sR, .ok ())
    have hdel : redisDel sR ("post:" ++ toString p.id) = sR := by
      unfold redisDel
      rw [Store.del_of_get_none _ hd, Store.del_of_get_none _ he,
        Store.del_of_get_none _ hz]
    simp only [cacheDelete, hdel, removeFromAuthorPostsList, redisZrem]
    cases hs : sR.sortedSets
        ("author:" ++ jsTemplateStr p.author ++ ":posts") with
    | none => rfl
    | some m =>
      unfold zsetScore at hm
      rw [hs] at hm
      simp only [Option.bind] at hm
      show (RedisState.mk sR.data sR.expiry
          (sR.sortedSets.set
            ("author:" ++ jsTemplateStr p.author ++ ":posts")
            (m.del (toString p.id))),
        (Except.ok () : Except RedisErr Unit)) = (sR, Except.ok ())
      rw [Store.del_of_get_none _ hm, Store.set_of_get_eq _ hs]

/-- Witness for C4: deleting identifier 42 from empty downstream stores
succeeds and changes nothing. -/
theorem delete_absent_success_C4_witness :
    (esContains esEmpty (toString post42.id) = false
      ∧ redisEmpty.data ("post:" ++ toString post42.id) = none
      ∧ redisEmpty.expiry ("post:" ++ toString post42.id) = none
      ∧ redisEmpty.sortedSets ("post:" ++ toString post42.id) = none
      ∧ zsetScore redisEmpty
          ("author:" ++ jsTemplateStr post42.author ++ ":posts")
          (toString post42.id) = none)
    ∧ (searchApply true { op := "d", before := some post42, after := none }
        esEmpty = (esEmpty, .ok ())
      ∧ cacheApply true 0 { op := "d", before := some post42, after := none }
          redisEmpty = (redisEmpty, .ok ())) :=
  ⟨⟨rfl, rfl, rfl, rfl, rfl⟩,
   delete_absent_success_C4 post42 none 0 esEmpty redisEmpty
     rfl rfl rfl rfl rfl⟩

/-- C5. The claim says the search projection validates that identifier,
title, body and author are all non-empty and skips otherwise. Only the
test-extracted handler does; the production search indexer has no field
validation: on a Create record whose `after` carries only an identifier
it writes the incomplete document to the index and reports success,
while the test-extracted handler (which the repository's unit test
asserts against) skips with zero writes. -/
theorem missing_fields_indexed_C5 :
    (esContains (searchApply true
        { op := "c", before := none, after := some incompletePost }
        esEmpty).1 "1" = true)
    ∧ ((searchApply true
        { op := "c", before := none, after := some incompletePost }
        esEmpty).2 = .ok ())
    ∧ (searchIndexerUpsertTested true (some incompletePost) esEmpty
        = (esEmpty, .ok ())) :=
  ⟨rfl, rfl, rfl⟩

/-- C6. Snapshot (`r`) and Create (`c`) records are treated identically
by both consumers: for every payload, availability, and downstream
state, the two operation codes dispatch to the same upsert handler and
produce the same result. -/
theorem snapshot_create_identical_C6 (b a : Option PostDoc)
    (avail : Bool) (now : Nat) (sE : EsState) (sR : RedisState) :
    searchApply avail { op := "r", before := b, after := a } sE
      = searchApply avail { op := "c", before := b, after := a } sE
    ∧ cacheApply avail now { op := "r", before := b, after := a } sR
      = cacheApply avail now { op := "c", before := b, after := a } sR :=
  ⟨rfl, rfl⟩

/-- C7. Group index consistency: applying N Create records with distinct
identifiers for one author to a fresh cache leaves the author's ordered
set containing exactly those N identifiers, and additionally applying a
Delete for one of them leaves exactly the remaining N−1. -/
theorem group_index_consistency_C7 (a : String) (ps : List PostDoc)
    (pj : PostDoc) (now : Nat)
    (hauth : ∀ p ∈ ps, p.author = some a)
    (hdistinct : (ps.map fun p => toString p.id).Nodup)
    (hj : pj ∈ ps) :
    (∀ x, (zsetScore (applyCreateSeq now ps redisEmpty)
          ("author:" ++ a ++ ":posts") x).isSome
        ↔ x ∈ ps.map fun p => toString p.id)
    ∧ (∀ x, (zsetScore (cacheApply true now
            { op := "d", before := some pj, after := none }
            (applyCreateSeq now ps redisEmpty)).1
          ("author:" ++ a ++ ":posts") x).isSome
        ↔ (x ∈ (ps.map fun p => toString p.id)
            ∧ x ≠ toString pj.id)) := by
  have hnil : ps ≠ [] := by
    rintro rfl
    simp at hj
  obtain ⟨m, hm, hmx⟩ := createSeq_zset_lookup now a ps hnil redisEmpty hauth
  have hja : jsTemplateStr pj.author = a := by rw [hauth pj hj]; rfl
  have hempty :
      ∀ x, zsetScore redisEmpty ("author:" ++ a ++ ":posts") x = none :=
    fun _ => rfl
  constructor
  · intro x
    rw [zsetScore, hm]
    show (m x).isSome = true ↔ _
    rw [hmx x]
    by_cases hx : x ∈ ps.map (fun p => toString p.id) <;>
      simp [hx, hempty]
  · intro x
    have hc : cacheApply true now
        { op := "d", before := some pj, after := none }
        (applyCreateSeq now ps redisEmpty)
      = cacheDelete (some pj) (applyCreateSeq now ps redisEmpty) := rfl
    rw [hc, cacheDelete_zscore pj a _ hja x]
    by_cases hx2 : x = toString pj.id
    · simp [hx2]
    · rw [if_neg hx2, zsetScore, hm]
      show (m x).isSome = true ↔ _
      rw [hmx x]
      by_cases hx : x ∈ ps.map (fun p => toString p.id) <;>
        simp [hx, hx2, hempty]

/-- Witness for C7: three creates by Alice (ids 1, 2, 3) on a fresh
cache, then a delete of id 2. -/
theorem group_index_consistency_C7_witness :
    ((∀ p ∈ [authorRow 1, authorRow 2, authorRow 3],
        p.author = some "Alice")
      ∧ (([authorRow 1, authorRow 2, authorRow 3].map
          fun p => toString p.id).Nodup)
      ∧ authorRow 2 ∈ [authorRow 1, authorRow 2, authorRow 3])
    ∧ ((∀ x, (zsetScore
          (applyCreateSeq 0 [authorRow 1, authorRow 2, authorRow 3]
            redisEmpty) ("author:" ++ "Alice" ++ ":posts") x).isSome
        ↔ x ∈ [authorRow 1, authorRow 2, authorRow 3].map
            fun p => toString p.id)
      ∧ (∀ x, (zsetScore (cacheApply true 0
            { op := "d", before := some (authorRow 2), after := none }
            (applyCreateSeq 0 [authorRow 1, authorRow 2, authorRow 3]
              redisEmpty)).1
          ("author:" ++ "Alice" ++ ":posts") x).isSome
        ↔ (x ∈ ([authorRow 1, authorRow 2, authorRow 3].map
              fun p => toString p.id)
            ∧ x ≠ toString (authorRow 2).id))) :=
  ⟨⟨by decide, by decide, by decide⟩,
   group_index_consistency_C7 "Alice"
     [authorRow 1, authorRow 2, authorRow 3] (authorRow 2) 0
     (by decide) (by decide) (by decide)⟩

/-- C8. On every upsert the cache projection stores the row under key
`post:{id}` (the spec's generic rendering is `row:{id}`) with TTL 300
seconds and value equal to the serialized
`{id, title, content, author, created_at, updated_at}` record, and adds
the id to the `author:{author}:posts` ordered set (the spec's
`group:{author}:rows`) scored by the ingestion time, refreshing that
key's own 300-second TTL. -/
theorem cache_write_shape_C8 (p : PostDoc) (a : String) (s : RedisState)
    (now : Nat) (ha : p.author = some a) :
    ((cacheApply true now
        { op := "c", before := none, after := some p } s).1.data
        ("post:" ++ toString p.id) = some (docOf p))
    ∧ ((cacheApply true now
        { op := "c", before := none, after := some p } s).1.expiry
        ("post:" ++ toString p.id) = some (now + CACHE_TTL * 1000))
    ∧ (zsetScore (cacheApply true now
          { op := "c", before := none, after := some p } s).1
        ("author:" ++ a ++ ":posts") (toString p.id) = some now)
    ∧ ((cacheApply true now
        { op := "c", before := none, after := some p } s).1.expiry
        ("author:" ++ a ++ ":posts") = some (now + CACHE_TTL * 1000))
    ∧ ((cacheApply true now
        { op := "c", before := none, after := some p } s).2 = .ok ()) := by
  have hc : cacheApply true now
        { op := "c", before := none, after := some p } s
      = cacheUpsert true now (some p) s := rfl
  have hne : ("post:" ++ toString p.id) ≠ ("author:" ++ a ++ ":posts") :=
    Ne.symm (author_key_ne_post_key a (toString p.id))
  have hj : jsTemplateStr p.author = a := by rw [ha]; rfl
  rw [hc]
  refine ⟨?_, ?_, ?_, ?_, rfl⟩ <;>
    simp [cacheUpsert_eq, hj, zsetScore, Store.get_set_self,
      Store.get_set_ne _ _ hne]

/-- Witness for C8 at a concrete row and a fresh cache. -/
theorem cache_write_shape_C8_witness :
    (samplePost.author = some "Test Author")
    ∧ (((cacheApply true 5
        { op := "c", before := none, after := some samplePost }
        redisEmpty).1.data ("post:" ++ toString samplePost.id)
          = some (docOf samplePost))
      ∧ ((cacheApply true 5
        { op := "c", before := none, after := some samplePost }
        redisEmpty).1.expiry ("post:" ++ toString samplePost.id)
          = some (5 + CACHE_TTL * 1000))
      ∧ (zsetScore (cacheApply true 5
            { op := "c", before := none, after := some samplePost }
            redisEmpty).1
          ("author:" ++ "Test Author" ++ ":posts")
          (toString samplePost.id) = some 5)
      ∧ ((cacheApply true 5
        { op := "c", before := none, after := some samplePost }
        redisEmpty).1.expiry ("author:" ++ "Test Author" ++ ":posts")
          = some (5 + CACHE_TTL * 1000))
      ∧ ((cacheApply true 5
        { op := "c", before := none, after := some samplePost }
        redisEmpty).2 = .ok ())) :=
  ⟨rfl, cache_write_shape_C8 samplePost "Test Author" redisEmpty 5 rfl⟩

/-- C9 counterexample. The claim says the decoder fails with a
`DecodeError` on every unknown operation code. It does not: a
structurally well-formed payload whose operation code is the unknown
`"x"` decodes successfully into a Change Record. -/
theorem decode_unknown_op_ok_C9 :
    decodeChangeEvent (some unknownOpPayload)
      = .ok { op := some (.str "x"), before := some .null,
              after := some .null } := rfl

/-- C9 amended. The decode step fails exactly on malformed input:
`JSON.parse` failure, or an envelope access that throws (reading a
property of `undefined`/`null`). A payload whose `payload` field is an
object always decodes successfully, whatever its operation code or field
schema; records with unknown operation codes are then dropped (state
unchanged, success) by the consumer's own dispatch switch, so for those
the drop-and-continue decision lives inside the consumer, not with an
outer caller. -/
theorem decoder_behavior_amended_C9 (fs pfs : List (String × Json))
    (hp : jGet fs "payload" = some (.obj pfs)) (op : String)
    (hop : op ≠ "c" ∧ op ≠ "r" ∧ op ≠ "u" ∧ op ≠ "d")
    (b a : Option PostDoc) (avail : Bool) (now : Nat)
    (sE : EsState) (sR : RedisState) :
    decodeChangeEvent none = .error .malformedJson
    ∧ decodeChangeEvent (some .null) = .error .envelopeAccess
    ∧ decodeChangeEvent (some (.obj [])) = .error .envelopeAccess
    ∧ decodeChangeEvent (some (.obj fs))
        = .ok { op := jGet pfs "op", before := jGet pfs "before",
                after := jGet pfs "after" }
    ∧ searchApply avail { op := op, before := b, after := a } sE
        = (sE, .ok ())
    ∧ cacheApply avail now { op := op, before := b, after := a } sR
        = (sR, .ok ()) := by
  obtain ⟨h1, h2, h3, h4⟩ := hop
  refine ⟨rfl, rfl, rfl, ?_, ?_, ?_⟩
  · simp [decodeChangeEvent, jsGet, hp, bind, Except.bind]
  · simp [searchApply, h1, h2, h3, h4]
  · simp [cacheApply, h1, h2, h3, h4]

/-- Witness for the amended C9 at the concrete unknown-op payload. -/
theorem decoder_behavior_amended_C9_witness :
    (jGet [("payload",
        .obj [("op", .str "x"), ("before", .null), ("after", .null)])]
        "payload"
      = some (.obj [("op", .str "x"), ("before", .null),
          ("after", .null)])
      ∧ ("x" ≠ "c" ∧ "x" ≠ "r" ∧ "x" ≠ "u" ∧ "x" ≠ "d"))
    ∧ (decodeChangeEvent none = .error .malformedJson
      ∧ decodeChangeEvent (some .null) = .error .envelopeAccess
      ∧ decodeChangeEvent (some (.obj [])) = .error .envelopeAccess
      ∧ decodeChangeEvent (some (.obj [("payload",
          .obj [("op", .str "x"), ("before", .null), ("after", .null)])]))
          = .ok { op := jGet [("op", .str "x"), ("before", .null),
                    ("after", .null)] "op",
                  before := jGet [("op", .str "x"), ("before", .null),
                    ("after", .null)] "before",
                  after := jGet [("op", .str "x"), ("before", .null),
                    ("after", .null)] "after" }
      ∧ searchApply true { op := "x", before := none, after := none }
          esEmpty = (esEmpty, .ok ())
      ∧ cacheApply true 0 { op := "x", before := none, after := none }
          redisEmpty = (redisEmpty, .ok ())) :=
  ⟨⟨rfl, by decide, by decide, by decide, by decide⟩,
   decoder_behavior_amended_C9
     [("payload",
        .obj [("op", .str "x"), ("before", .null), ("after", .null)])]
     [("op", .str "x"), ("before", .null), ("after", .null)] rfl "x"
     ⟨by decide, by decide, by decide, by decide⟩
     none none true 0 esEmpty redisEmpty⟩

/-- C10. `MockElasticsearch.index` always reports `result = "updated"`,
even on a first insert: the document is stored into the map before the
membership check, so the `"created"` branch is unreachable. -/
theorem mockEs_index_result_always_updated_C10 (s : EsState)
    (idx docId : String) (doc : PostDoc) :
    (esIndex s idx docId doc).2.result = "updated" := by
  simp [esIndex, Store.has, Store.get_set_self]

end UnbundledDB
